import Mathlib

/-!
Shallow embedding of the IntelliSpend FastAPI backend (src/main.py).

The service is a CRUD surface over two PostgreSQL tables,
`users(user_id PK, username, email, created_at)` and
`expenses(user_id FK, user_expense_id, amount, category, merchant,
transaction_date, source)`.  We model the database as explicit lists of
rows, SQL statements as list operations (`ORDER BY ... DESC` as a merge
sort with a descending comparator), `DECIMAL` amounts as rationals,
timestamps as naturals, Python `int` columns as `Int`, and each HTTP
handler as a pure function from a database state (plus the request data)
to a new database state and an `Except`-style response.  Starlette route
dispatch for GET requests is modelled by the ordered route table in
registration order, and FastAPI's dependency/validation sequencing for
the POST /expenses/manual/ path is modelled as an explicit event trace
(connection opened, SQL statement executed, connection closed).
-/

deriving instance DecidableEq for Except

namespace IntelliSpend

/-- Error outcomes of the HTTP surface, each corresponding to an
`HTTPException` in src/main.py (or to FastAPI's request-validation
rejection, which happens before the handler runs). -/
inductive ApiError where
  /-- Pydantic / path-parameter validation failure: the handler is never invoked. -/
  | validation
  /-- `psycopg2.IntegrityError` on signup: line 127, status 409. -/
  | duplicateUser
  /-- Login lookup miss: line 144, status 401. -/
  | invalidCredentials
  /-- Any other `psycopg2.Error` on a user/expense route: status 400. -/
  | storage
  /-- Empty export dataset: line 249, status 404. -/
  | noData
  /-- No route matched the request path. -/
  | routeNotFound
deriving DecidableEq, Repr

/-- HTTP status code each error is surfaced with (422 is FastAPI's code
for request-validation failures). -/
def statusOf : ApiError → Nat
  | .validation => 422
  | .duplicateUser => 409
  | .invalidCredentials => 401
  | .storage => 400
  | .noData => 404
  | .routeNotFound => 404

/-- A row of the `users` table. -/
structure UserRow where
  user_id : Int
  username : String
  email : String
  created_at : Nat
deriving DecidableEq, Repr

/-- A row of the `expenses` table. -/
structure ExpenseRow where
  user_id : Int
  user_expense_id : Int
  amount : Rat
  category : String
  merchant : Option String
  transaction_date : Nat
  source : String
deriving DecidableEq, Repr

/-- The database state: the two tables, rows in insertion order.
`users.user_id` is the primary key (generated by the storage engine),
so at most one `UserRow` per `user_id`. -/
structure DB where
  users : List UserRow
  expenses : List ExpenseRow
deriving DecidableEq, Repr

/-- Surrogate `user_id` generation for `INSERT INTO users`: the next
value of the serial column, modelled as one more than the largest
existing id (and 1 on an empty table). -/
def nextUserId (db : DB) : Int :=
  (db.users.foldl (fun m u => max m u.user_id) 0) + 1

/-- Tests whether an `INSERT INTO users (username, email)` would violate
the unique constraint on `username` or `email`. -/
def duplicateUser (db : DB) (username email : String) : Bool :=
  db.users.any (fun u => u.username == username || u.email == email)

/-- Embedding of `create_user` (src/main.py lines 112-133,
POST /users/signup).  `dbFault` injects a database-level fault other
than an integrity violation (the second `except psycopg2.Error` arm).
Both failure arms roll the transaction back, so the database is
returned unchanged. -/
def create_user (db : DB) (username email : String) (now : Nat)
    (dbFault : Bool) : DB × Except ApiError UserRow :=
  if dbFault then
    (db, .error .storage)
  else if duplicateUser db username email then
    (db, .error .duplicateUser)
  else
    let row : UserRow :=
      { user_id := nextUserId db, username := username, email := email,
        created_at := now }
    ({ db with users := db.users ++ [row] }, .ok row)

/-- Embedding of `login_user` (src/main.py lines 135-150,
POST /users/login): `SELECT ... FROM users WHERE username = %s AND
email = %s` followed by `fetchone`, raising 401 when no row matches. -/
def login_user (db : DB) (username email : String) :
    Except ApiError UserRow :=
  match db.users.find? (fun u => u.username == username && u.email == email) with
  | some u => .ok u
  | none => .error .invalidCredentials

/-- The fields of the `ExpenseCreate` request body (src/main.py lines
86-91), before validation. -/
structure ExpenseCreate where
  user_id : Int
  amount : Rat
  category : String
  merchant : Option String
  transaction_date : Option Nat
deriving DecidableEq, Repr

/-- Pydantic validation of an `ExpenseCreate` body: `amount` carries
`Field(gt=0)`, so the body is accepted exactly when the amount is
strictly positive. -/
def validExpenseCreate (e : ExpenseCreate) : Bool :=
  decide (0 < e.amount)

/-- Embedding of `SELECT COALESCE(MAX(user_expense_id), 0) FROM expenses
WHERE user_id = %s` (src/main.py lines 165-171): the maximum
`user_expense_id` among the user's rows, and 0 when the user has no
rows. -/
def maxUserExpenseId (db : DB) (uid : Int) : Int :=
  (db.expenses.filter (fun e => e.user_id == uid)).foldl
    (fun m e => max m e.user_expense_id) 0

/-- Embedding of the body of `create_manual_expense` (src/main.py lines
156-197, POST /expenses/manual/): read the user's maximum
`user_expense_id`, insert the expense with that maximum plus one,
`source = 'manual'`, and the current timestamp when no
`transaction_date` was supplied. -/
def create_manual_expense (db : DB) (exp : ExpenseCreate) (now : Nat) :
    DB × ExpenseRow :=
  let next_user_expense_id := maxUserExpenseId db exp.user_id + 1
  let row : ExpenseRow :=
    { user_id := exp.user_id, user_expense_id := next_user_expense_id,
      amount := exp.amount, category := exp.category,
      merchant := exp.merchant,
      transaction_date := exp.transaction_date.getD now,
      source := "manual" }
  ({ db with expenses := db.expenses ++ [row] }, row)

/-- Runs a list of expense-creation requests strictly sequentially (no
overlap), returning the final database and the inserted rows in
insertion order. -/
def insertSeq (db : DB) (reqs : List ExpenseCreate) (now : Nat) :
    DB × List ExpenseRow :=
  match reqs with
  | [] => (db, [])
  | r :: rs =>
    let p := create_manual_expense db r now
    let q := insertSeq p.1 rs now
    (q.1, p.2 :: q.2)

/-- Descending comparator used to model `ORDER BY user_expense_id DESC`. -/
def byUserExpenseIdDesc (a b : ExpenseRow) : Bool :=
  decide (b.user_expense_id ≤ a.user_expense_id)

/-- Embedding of `get_user_expenses` (src/main.py lines 200-214,
GET /expenses/\x7buser_id\x7d): `SELECT * FROM expenses WHERE user_id = %s
ORDER BY user_expense_id DESC` followed by `fetchall`. -/
def get_user_expenses (db : DB) (uid : Int) : List ExpenseRow :=
  (db.expenses.filter (fun e => e.user_id == uid)).mergeSort
    byUserExpenseIdDesc

/-- One row of the Power BI export: exactly the columns selected at
src/main.py lines 228-237; `username`/`email` are nullable because the
join is a LEFT JOIN. -/
structure ExportRow where
  user_expense_id : Int
  user_id : Int
  username : Option String
  email : Option String
  amount : Rat
  category : String
  merchant : Option String
  transaction_date : Nat
  source : String
deriving DecidableEq, Repr

/-- The LEFT JOIN of one expense row against `users` on `user_id`
(src/main.py lines 240-241).  `users.user_id` is the primary key, so at
most one user row matches; when none does the user columns are NULL. -/
def joinedRow (users : List UserRow) (e : ExpenseRow) : ExportRow :=
  match users.find? (fun u => u.user_id == e.user_id) with
  | some u =>
    { user_expense_id := e.user_expense_id, user_id := e.user_id,
      username := some u.username, email := some u.email,
      amount := e.amount, category := e.category, merchant := e.merchant,
      transaction_date := e.transaction_date, source := e.source }
  | none =>
    { user_expense_id := e.user_expense_id, user_id := e.user_id,
      username := none, email := none,
      amount := e.amount, category := e.category, merchant := e.merchant,
      transaction_date := e.transaction_date, source := e.source }

/-- Descending comparator used to model `ORDER BY e.transaction_date DESC`. -/
def byTransactionDateDesc (a b : ExportRow) : Bool :=
  decide (b.transaction_date ≤ a.transaction_date)

/-- The result set of the export query (src/main.py lines 227-244): the
left join of every expense against the users table, ordered by
`transaction_date` descending. -/
def exportRows (db : DB) : List ExportRow :=
  (db.expenses.map (joinedRow db.users)).mergeSort byTransactionDateDesc

/-- The Content-Disposition header value set at src/main.py line 262. -/
def exportContentDisposition : String :=
  "attachment; filename=intellispend_expenses.csv"

/-- Embedding of the body of `export_expenses_for_powerbi` (src/main.py
lines 219-264): runs the join query; raises 404 when the result set is
empty; otherwise streams the rows as CSV with a Content-Disposition
header naming the file. -/
def export_expenses_for_powerbi (db : DB) :
    Except ApiError (List ExportRow × String) :=
  let rows := exportRows db
  if rows.isEmpty then .error .noData
  else .ok (rows, exportContentDisposition)

/-- One segment of a Starlette route pattern: a literal path segment, or
a path parameter (which, without a convertor, matches any single
segment regardless of the handler's type hint). -/
inductive Seg where
  | lit (s : String)
  | param
deriving DecidableEq, Repr

/-- The GET handlers of the application. -/
inductive GetHandler where
  | read_root
  | user_expenses
  | powerbi_export
deriving DecidableEq, Repr

/-- Whether a route pattern matches a request path (split into
segments).  A parameter segment matches any one segment; type coercion
of the captured value happens later, inside FastAPI validation. -/
def matchesPattern : List Seg → List String → Bool
  | [], [] => true
  | Seg.lit s :: ps, x :: xs => s == x && matchesPattern ps xs
  | Seg.param :: ps, _ :: xs => matchesPattern ps xs
  | _, _ => false

/-- The captured path-parameter values of a matched pattern. -/
def capturedParams : List Seg → List String → List String
  | Seg.lit _ :: ps, _ :: xs => capturedParams ps xs
  | Seg.param :: ps, x :: xs => x :: capturedParams ps xs
  | _, _ => []

/-- The application's GET route table, in registration order
(src/main.py: `read_root` at line 106, `get_user_expenses` at line 200,
`export_expenses_for_powerbi` at line 219).  The path-parameter route
for user expenses is registered before the literal export route. -/
def getRoutes : List (List Seg × GetHandler) :=
  [([], .read_root),
   ([Seg.lit "expenses", Seg.param], .user_expenses),
   ([Seg.lit "expenses", Seg.lit "powerbi_export"], .powerbi_export)]

/-- Starlette dispatch of a GET request: the first registered route
whose pattern matches the path wins, together with its captured
parameters. -/
def dispatchGet (path : List String) : Option (GetHandler × List String) :=
  (getRoutes.find? (fun r => matchesPattern r.1 path)).map
    (fun r => (r.2, capturedParams r.1 path))

/-- Decimal value of a digit string, as computed by an integer parser. -/
def decimalValue (cs : List Char) : Nat :=
  cs.foldl (fun n c => n * 10 + (c.toNat - '0'.toNat)) 0

/-- Coercion of a captured path-parameter string to the handler's
`user_id : int` type hint, as performed by FastAPI/pydantic before the
handler is invoked: an optional minus sign followed by a nonempty digit
string parses to the corresponding integer; anything else is rejected
with a request-validation error. -/
def parseIntSegment (s : String) : Option Int :=
  match s.data with
  | [] => none
  | '-' :: cs =>
    if !cs.isEmpty && cs.all Char.isDigit then some (-(decimalValue cs : Int))
    else none
  | cs =>
    if cs.all Char.isDigit then some ((decimalValue cs : Int))
    else none

/-- Successful GET responses. -/
inductive GetOk where
  | rootMessage (msg : String)
  | expenseList (rows : List ExpenseRow)
  | csvExport (rows : List ExportRow) (contentDisposition : String)
deriving DecidableEq, Repr

/-- A full GET request against the application: Starlette routing, then
FastAPI path-parameter validation (the `user_id : int` hint means the
captured string must parse as an integer, else the request is rejected
with a validation error and the handler never runs), then the handler
body. -/
def handleGet (db : DB) (path : List String) : Except ApiError GetOk :=
  match dispatchGet path with
  | none => .error .routeNotFound
  | some (.read_root, _) => .ok (.rootMessage "Welcome to the IntelliSpend API")
  | some (.user_expenses, args) =>
    match args.head? with
    | none => .error .validation
    | some s =>
      match parseIntSegment s with
      | none => .error .validation
      | some uid => .ok (.expenseList (get_user_expenses db uid))
  | some (.powerbi_export, _) =>
    match export_expenses_for_powerbi db with
    | .error e => .error e
    | .ok (rows, cd) => .ok (.csvExport rows cd)

/-- Observable resource events of one request. -/
inductive ReqEvent where
  /-- The `get_db_connection` dependency opened a connection. -/
  | connOpened
  /-- A SQL statement was executed on the connection. -/
  | dbStatement
  /-- `conn.close()` ran (only in the handler's `finally` block). -/
  | connClosed
deriving DecidableEq, Repr

/-- A full POST /expenses/manual/ request.  FastAPI resolves the
`Depends(get_db_connection)` dependency first — `get_db_connection`
(src/main.py lines 55-68) plainly returns the connection, with no
`yield` and hence no teardown of its own — and then validates the body.
When validation fails the handler is never invoked, so the `finally:
conn.close()` at lines 195-197 never runs.  When it succeeds the
handler executes the SELECT and the INSERT and closes the connection in
`finally`. -/
def postExpensesManual (db : DB) (body : ExpenseCreate) (now : Nat) :
    (DB × Except ApiError ExpenseRow) × List ReqEvent :=
  if validExpenseCreate body then
    let p := create_manual_expense db body now
    ((p.1, .ok p.2),
     [.connOpened, .dbStatement, .dbStatement, .connClosed])
  else
    ((db, .error .validation), [.connOpened])

/-- The list of consecutive integers `s, s+1, ..., s+n-1`; used to state
that the ids assigned by the sequential ledger are exactly `1..N`. -/
def intRange (s : Int) : Nat → List Int
  | 0 => []
  | n + 1 => s :: intRange (s + 1) n

/-- Concrete empty database used by witnesses. -/
def dbEmpty : DB := ⟨[], []⟩

/-- Concrete expense request used by witnesses. -/
def reqFood : ExpenseCreate := ⟨1, 5, "food", none, none⟩

/-! ### Helper lemmas -/

theorem mem_intRange : ∀ (n : Nat) (s x : Int),
    x ∈ intRange s n ↔ s ≤ x ∧ x < s + n
  | 0, s, x => by simp [intRange]
  | n + 1, s, x => by
    simp only [intRange, List.mem_cons, mem_intRange n (s + 1) x]
    omega

theorem pairwise_lt_intRange : ∀ (n : Nat) (s : Int),
    (intRange s n).Pairwise (· < ·)
  | 0, _ => by simp [intRange]
  | n + 1, s => by
    refine List.Pairwise.cons (fun x hx => ?_) (pairwise_lt_intRange n (s + 1))
    have := (mem_intRange n (s + 1) x).mp hx
    omega

theorem nodup_intRange (n : Nat) (s : Int) : (intRange s n).Nodup :=
  (pairwise_lt_intRange n s).imp (fun h => Int.ne_of_lt h)

theorem maxUserExpenseId_of_no_rows (db : DB) (uid : Int)
    (h : db.expenses.filter (fun e => e.user_id == uid) = []) :
    maxUserExpenseId db uid = 0 := by
  unfold maxUserExpenseId
  rw [h]
  rfl

theorem create_manual_expense_fst (db : DB) (e : ExpenseCreate) (now : Nat) :
    (create_manual_expense db e now).1
      = { db with expenses := db.expenses ++ [(create_manual_expense db e now).2] } := rfl

theorem create_manual_expense_user_id (db : DB) (e : ExpenseCreate) (now : Nat) :
    (create_manual_expense db e now).2.user_id = e.user_id := rfl

theorem create_manual_expense_id (db : DB) (e : ExpenseCreate) (now : Nat) :
    (create_manual_expense db e now).2.user_expense_id
      = maxUserExpenseId db e.user_id + 1 := rfl

theorem maxUserExpenseId_append (db : DB) (row : ExpenseRow) (uid : Int)
    (h : row.user_id = uid) :
    maxUserExpenseId { db with expenses := db.expenses ++ [row] } uid
      = max (maxUserExpenseId db uid) row.user_expense_id := by
  simp [maxUserExpenseId, List.filter_append, h]

theorem maxUserExpenseId_create (db : DB) (e : ExpenseCreate) (now : Nat)
    (uid : Int) (h : e.user_id = uid) :
    maxUserExpenseId (create_manual_expense db e now).1 uid
      = maxUserExpenseId db uid + 1 := by
  rw [create_manual_expense_fst,
    maxUserExpenseId_append db _ uid (by rw [create_manual_expense_user_id, h]),
    create_manual_expense_id, h]
  exact max_eq_right (by omega)

theorem insertSeq_user_ids (now : Nat) :
    ∀ (reqs : List ExpenseCreate) (db : DB) (uid : Int),
      (∀ r ∈ reqs, r.user_id = uid) →
      ∀ row ∈ (insertSeq db reqs now).2, row.user_id = uid
  | [], _, _, _ => by simp [insertSeq]
  | r :: rs, db, uid, hall => by
    intro row hrow
    simp only [insertSeq, List.mem_cons] at hrow
    rcases hrow with h | h
    · rw [h, create_manual_expense_user_id]
      exact hall r (List.mem_cons_self r rs)
    · exact insertSeq_user_ids now rs _ uid
        (fun x hx => hall x (List.mem_cons_of_mem r hx)) row h

theorem insertSeq_expenses (now : Nat) :
    ∀ (reqs : List ExpenseCreate) (db : DB),
      (insertSeq db reqs now).1.expenses
        = db.expenses ++ (insertSeq db reqs now).2
  | [], db => by simp [insertSeq]
  | r :: rs, db => by
    simp only [insertSeq]
    rw [insertSeq_expenses now rs _, create_manual_expense_fst]
    simp

theorem insertSeq_ids (now : Nat) :
    ∀ (reqs : List ExpenseCreate) (db : DB) (uid : Int),
      (∀ r ∈ reqs, r.user_id = uid) →
      (insertSeq db reqs now).2.map (fun r => r.user_expense_id)
        = intRange (maxUserExpenseId db uid + 1) reqs.length
  | [], db, uid, _ => by simp [insertSeq, intRange]
  | r :: rs, db, uid, hall => by
    have hr : r.user_id = uid := hall r (List.mem_cons_self r rs)
    have hrs : ∀ x ∈ rs, x.user_id = uid :=
      fun x hx => hall x (List.mem_cons_of_mem r hx)
    simp only [insertSeq, List.map_cons, List.length_cons]
    rw [insertSeq_ids now rs _ uid hrs, maxUserExpenseId_create db r now uid hr,
      create_manual_expense_id, hr]
    simp [intRange]

theorem byUserExpenseIdDesc_trans (a b c : ExpenseRow) :
    byUserExpenseIdDesc a b → byUserExpenseIdDesc b c → byUserExpenseIdDesc a c := by
  simp only [byUserExpenseIdDesc, decide_eq_true_eq]
  omega

theorem byUserExpenseIdDesc_total (a b : ExpenseRow) :
    byUserExpenseIdDesc a b || byUserExpenseIdDesc b a := by
  simp only [byUserExpenseIdDesc, Bool.or_eq_true, decide_eq_true_eq]
  omega

theorem get_user_expenses_perm (db : DB) (uid : Int) :
    (get_user_expenses db uid).Perm (db.expenses.filter (fun e => e.user_id == uid)) :=
  List.mergeSort_perm _ _

theorem get_user_expenses_sorted (db : DB) (uid : Int) :
    (get_user_expenses db uid).Pairwise
      (fun a b => b.user_expense_id ≤ a.user_expense_id) :=
  (List.sorted_mergeSort byUserExpenseIdDesc_trans byUserExpenseIdDesc_total _).imp
    (fun h => by simpa [byUserExpenseIdDesc] using h)

theorem insertSeq_filter (db : DB) (uid : Int) (reqs : List ExpenseCreate)
    (now : Nat) (hall : ∀ r ∈ reqs, r.user_id = uid)
    (hempty : db.expenses.filter (fun e => e.user_id == uid) = []) :
    (insertSeq db reqs now).1.expenses.filter (fun e => e.user_id == uid)
      = (insertSeq db reqs now).2 := by
  rw [insertSeq_expenses, List.filter_append, hempty, List.nil_append,
    List.filter_eq_self]
  intro row hrow
  simpa using insertSeq_user_ids now reqs db uid hall row hrow

/-! ### Claim theorems -/

/-- C1: for every sequence of N expense insertions for the same
`user_id` issued strictly sequentially, `create_manual_expense` assigns
`user_expense_id` values exactly `1..N` (in order, hence with no gaps
or repeats): each insert reads the user's maximum existing id (0 when
the user has no rows) and inserts that maximum plus one. -/
theorem claim_C1_sequential_expense_ids (db : DB) (uid : Int)
    (reqs : List ExpenseCreate) (now : Nat)
    (hall : ∀ r ∈ reqs, r.user_id = uid)
    (hempty : db.expenses.filter (fun e => e.user_id == uid) = []) :
    maxUserExpenseId db uid = 0 ∧
    (∀ (db' : DB) (e : ExpenseCreate),
      (create_manual_expense db' e now).2.user_expense_id
        = maxUserExpenseId db' e.user_id + 1) ∧
    (insertSeq db reqs now).2.map (fun r => r.user_expense_id)
      = intRange 1 reqs.length := by
  have h0 : maxUserExpenseId db uid = 0 := maxUserExpenseId_of_no_rows db uid hempty
  refine ⟨h0, fun db' e => create_manual_expense_id db' e now, ?_⟩
  rw [insertSeq_ids now reqs db uid hall, h0]
  norm_num

/-- Witness for C1: three sequential insertions for user 1 into the
empty database receive ids 1, 2, 3. -/
theorem claim_C1_witness :
    (insertSeq dbEmpty [reqFood, reqFood, reqFood] 100).2.map
        (fun r => r.user_expense_id) = intRange 1 3 :=
  (claim_C1_sequential_expense_ids dbEmpty 1 [reqFood, reqFood, reqFood] 100
    (by decide) (by decide)).2.2

/-- C2: `get_user_expenses` returns exactly the expense rows of the
requested user, ordered by `user_expense_id` descending (always
non-strictly, and strictly when the rows were produced by sequential
single-threaded insertions, in which case the returned list is exactly
the reverse of insertion order). -/
theorem claim_C2_list_descending (db : DB) (uid : Int)
    (reqs : List ExpenseCreate) (now : Nat)
    (hall : ∀ r ∈ reqs, r.user_id = uid)
    (hempty : db.expenses.filter (fun e => e.user_id == uid) = []) :
    (∀ (db' : DB) (uid' : Int),
      (get_user_expenses db' uid').Perm
          (db'.expenses.filter (fun e => e.user_id == uid')) ∧
      (get_user_expenses db' uid').Pairwise
        (fun a b => b.user_expense_id ≤ a.user_expense_id)) ∧
    get_user_expenses (insertSeq db reqs now).1 uid
      = (insertSeq db reqs now).2.reverse ∧
    (get_user_expenses (insertSeq db reqs now).1 uid).Pairwise
      (fun a b => b.user_expense_id < a.user_expense_id) := by
  refine ⟨fun db' uid' => ⟨get_user_expenses_perm db' uid',
    get_user_expenses_sorted db' uid'⟩, ?_⟩
  have hids : (insertSeq db reqs now).2.map (fun r => r.user_expense_id)
      = intRange 1 reqs.length := by
    rw [insertSeq_ids now reqs db uid hall, maxUserExpenseId_of_no_rows db uid hempty]
    norm_num
  have hasc : (insertSeq db reqs now).2.Pairwise
      (fun a b => a.user_expense_id < b.user_expense_id) := by
    have h := pairwise_lt_intRange reqs.length 1
    rw [← hids] at h
    exact List.pairwise_map.mp h
  have hrev : ((insertSeq db reqs now).2.reverse).Pairwise
      (fun a b => b.user_expense_id < a.user_expense_id) :=
    List.pairwise_reverse.mpr hasc
  have hnodup : ((insertSeq db reqs now).2.map (fun r => r.user_expense_id)).Nodup := by
    rw [hids]
    exact nodup_intRange reqs.length 1
  have hget : get_user_expenses (insertSeq db reqs now).1 uid
      = ((insertSeq db reqs now).2).mergeSort byUserExpenseIdDesc := by
    unfold get_user_expenses
    rw [insertSeq_filter db uid reqs now hall hempty]
  have hperm : (get_user_expenses (insertSeq db reqs now).1 uid).Perm
      ((insertSeq db reqs now).2.reverse) := by
    rw [hget]
    exact (List.mergeSort_perm _ _).trans (List.reverse_perm _).symm
  have hstrict : (get_user_expenses (insertSeq db reqs now).1 uid).Pairwise
      (fun a b => b.user_expense_id < a.user_expense_id) := by
    have hle := get_user_expenses_sorted (insertSeq db reqs now).1 uid
    have hne : (get_user_expenses (insertSeq db reqs now).1 uid).Pairwise
        (fun a b => a.user_expense_id ≠ b.user_expense_id) := by
      refine List.pairwise_map.mp ?_
      have hpm : ((get_user_expenses (insertSeq db reqs now).1 uid).map
            (fun r => r.user_expense_id)).Perm
          ((insertSeq db reqs now).2.map (fun r => r.user_expense_id)) := by
        rw [hget]
        exact (List.mergeSort_perm _ _).map _
      exact hpm.nodup_iff.mpr hnodup
    exact (hle.and hne).imp (fun h => lt_of_le_of_ne h.1 (Ne.symm h.2))
  have heq : get_user_expenses (insertSeq db reqs now).1 uid
      = (insertSeq db reqs now).2.reverse := by
    haveI : IsAntisymm ExpenseRow (fun a b => b.user_expense_id < a.user_expense_id) :=
      ⟨fun a b h1 h2 => absurd (h1.trans h2) (lt_irrefl _)⟩
    exact List.eq_of_perm_of_sorted hperm hstrict hrev
  exact ⟨heq, heq ▸ hrev⟩

/-- Witness for C2: after two sequential insertions for user 1 into the
empty store, the listing is the reverse of insertion order and strictly
descending. -/
theorem claim_C2_witness :
    (∀ (db' : DB) (uid' : Int),
      (get_user_expenses db' uid').Perm
          (db'.expenses.filter (fun e => e.user_id == uid')) ∧
      (get_user_expenses db' uid').Pairwise
        (fun a b => b.user_expense_id ≤ a.user_expense_id)) ∧
    get_user_expenses (insertSeq dbEmpty [reqFood, reqFood] 100).1 1
      = (insertSeq dbEmpty [reqFood, reqFood] 100).2.reverse ∧
    (get_user_expenses (insertSeq dbEmpty [reqFood, reqFood] 100).1 1).Pairwise
      (fun a b => b.user_expense_id < a.user_expense_id) :=
  claim_C2_list_descending dbEmpty 1 [reqFood, reqFood] 100 (by decide) (by decide)

/-- C3: `login_user` succeeds returning a user record exactly when a
stored row matches both `username` and `email`; any mismatch fails with
the invalid-credentials error, surfaced as status 401. -/
theorem claim_C3_login_iff (db : DB) (un em : String) :
    ((∃ u, login_user db un em = .ok u)
        ↔ ∃ u ∈ db.users, u.username = un ∧ u.email = em) ∧
    (∀ u, login_user db un em = .ok u →
        u ∈ db.users ∧ u.username = un ∧ u.email = em) ∧
    ((login_user db un em = .error .invalidCredentials)
        ↔ ∀ u ∈ db.users, ¬(u.username = un ∧ u.email = em)) ∧
    statusOf .invalidCredentials = 401 := by
  cases hfind : db.users.find? (fun u => u.username == un && u.email == em) with
  | none =>
    have hall : ∀ u ∈ db.users, ¬(u.username = un ∧ u.email = em) := by
      intro u hu
      have := List.find?_eq_none.mp hfind u hu
      simpa [Bool.and_eq_true] using this
    refine ⟨?_, ?_, ?_, rfl⟩
    · simp only [login_user, hfind]
      constructor
      · rintro ⟨u, hu⟩; exact absurd hu (by simp)
      · rintro ⟨u, hu, h1, h2⟩; exact absurd ⟨h1, h2⟩ (hall u hu)
    · intro u hu
      simp [login_user, hfind] at hu
    · simp only [login_user, hfind]
      exact iff_of_true (by simp) hall
  | some u =>
    have hmem : u ∈ db.users := List.mem_of_find?_eq_some hfind
    have hpred := List.find?_some hfind
    have hun : u.username = un ∧ u.email = em := by
      simpa [Bool.and_eq_true] using hpred
    refine ⟨?_, ?_, ?_, rfl⟩
    · simp only [login_user, hfind]
      exact ⟨fun _ => ⟨u, hmem, hun⟩, fun _ => ⟨u, rfl⟩⟩
    · intro v hv
      simp only [login_user, hfind, Except.ok.injEq] at hv
      rw [← hv]
      exact ⟨hmem, hun⟩
    · simp only [login_user, hfind]
      constructor
      · intro h; exact absurd h (by simp)
      · intro h; exact absurd hun (h u hmem)

/-- Witness for C3 at a concrete store: one user, matching and
mismatching lookups. -/
theorem claim_C3_witness :
    ((∃ u, login_user ⟨[⟨1, "alice", "a@x.com", 0⟩], []⟩ "alice" "a@x.com" = .ok u)
        ↔ ∃ u ∈ [UserRow.mk 1 "alice" "a@x.com" 0],
            u.username = "alice" ∧ u.email = "a@x.com") ∧
    (∀ u, login_user ⟨[⟨1, "alice", "a@x.com", 0⟩], []⟩ "alice" "a@x.com" = .ok u →
        u ∈ [UserRow.mk 1 "alice" "a@x.com" 0]
          ∧ u.username = "alice" ∧ u.email = "a@x.com") ∧
    ((login_user ⟨[⟨1, "alice", "a@x.com", 0⟩], []⟩ "alice" "a@x.com"
        = .error .invalidCredentials)
        ↔ ∀ u ∈ [UserRow.mk 1 "alice" "a@x.com" 0],
            ¬(u.username = "alice" ∧ u.email = "a@x.com")) ∧
    statusOf .invalidCredentials = 401 :=
  claim_C3_login_iff ⟨[⟨1, "alice", "a@x.com", 0⟩], []⟩ "alice" "a@x.com"

/-- C4: a signup that violates the uniqueness constraint fails with the
duplicate-user error, surfaced as status 409 (an error distinct from
the generic storage failure), and the database is returned unchanged
(the transaction is rolled back, no row persisted); any other
database-level fault fails with the storage error, also without
persisting a row. -/
theorem claim_C4_signup_conflict (db : DB) (un em : String) (now : Nat) :
    (duplicateUser db un em = true →
      create_user db un em now false = (db, .error .duplicateUser)) ∧
    (duplicateUser db un em = true
      ↔ ∃ u ∈ db.users, u.username = un ∨ u.email = em) ∧
    statusOf .duplicateUser = 409 ∧
    ApiError.duplicateUser ≠ ApiError.storage ∧
    create_user db un em now true = (db, .error .storage) := by
  refine ⟨fun hdup => by simp [create_user, hdup], ?_, rfl, by decide,
    by simp [create_user]⟩
  simp [duplicateUser, List.any_eq_true]

/-- Witness for C4: signing up with an already-used username is
rejected as a duplicate and the store is unchanged. -/
theorem claim_C4_witness :
    (duplicateUser ⟨[⟨1, "alice", "a@x.com", 0⟩], []⟩ "alice" "b@y.com" = true →
      create_user ⟨[⟨1, "alice", "a@x.com", 0⟩], []⟩ "alice" "b@y.com" 7 false
        = (⟨[⟨1, "alice", "a@x.com", 0⟩], []⟩, .error .duplicateUser)) ∧
    (duplicateUser ⟨[⟨1, "alice", "a@x.com", 0⟩], []⟩ "alice" "b@y.com" = true
      ↔ ∃ u ∈ [UserRow.mk 1 "alice" "a@x.com" 0],
          u.username = "alice" ∨ u.email = "b@y.com") ∧
    statusOf .duplicateUser = 409 ∧
    ApiError.duplicateUser ≠ ApiError.storage ∧
    create_user ⟨[⟨1, "alice", "a@x.com", 0⟩], []⟩ "alice" "b@y.com" 7 true
      = (⟨[⟨1, "alice", "a@x.com", 0⟩], []⟩, .error .storage) :=
  claim_C4_signup_conflict ⟨[⟨1, "alice", "a@x.com", 0⟩], []⟩ "alice" "b@y.com" 7

/-- C5: a manual-expense request whose amount is zero or negative is
rejected by model validation: the response is the validation error, the
database is unchanged (no expense row persisted), and no SQL statement
is ever executed. -/
theorem claim_C5_nonpositive_amount (db : DB) (body : ExpenseCreate) (now : Nat)
    (h : body.amount ≤ 0) :
    validExpenseCreate body = false ∧
    (postExpensesManual db body now).1 = (db, .error .validation) ∧
    ReqEvent.dbStatement ∉ (postExpensesManual db body now).2 := by
  have hv : validExpenseCreate body = false := by
    unfold validExpenseCreate
    exact decide_eq_false (not_lt.mpr h)
  refine ⟨hv, ?_, ?_⟩ <;> simp [postExpensesManual, hv]

/-- Witness for C5: amount 0 is rejected and persists nothing. -/
theorem claim_C5_witness :
    validExpenseCreate ⟨1, 0, "food", none, none⟩ = false ∧
    (postExpensesManual dbEmpty ⟨1, 0, "food", none, none⟩ 100).1
      = (dbEmpty, .error .validation) ∧
    ReqEvent.dbStatement ∉ (postExpensesManual dbEmpty ⟨1, 0, "food", none, none⟩ 100).2 :=
  claim_C5_nonpositive_amount dbEmpty ⟨1, 0, "food", none, none⟩ 100 (by decide)

/-- C10: the connection opened by the `get_db_connection` dependency is
closed only by the handler's `finally` block, so a request whose body
fails validation (the handler is never invoked) opens a connection that
is never closed, while a valid request closes the one connection it
opened. -/
theorem claim_C10_connection_leak (db : DB) (body : ExpenseCreate) (now : Nat)
    (h : body.amount ≤ 0) :
    (postExpensesManual db body now).2 = [ReqEvent.connOpened] ∧
    ReqEvent.connOpened ∈ (postExpensesManual db body now).2 ∧
    ReqEvent.connClosed ∉ (postExpensesManual db body now).2 ∧
    (∀ (db' : DB) (b : ExpenseCreate), 0 < b.amount →
      (postExpensesManual db' b now).2
        = [ReqEvent.connOpened, ReqEvent.dbStatement, ReqEvent.dbStatement,
           ReqEvent.connClosed]) := by
  have hv : validExpenseCreate body = false := by
    unfold validExpenseCreate
    exact decide_eq_false (not_lt.mpr h)
  refine ⟨by simp [postExpensesManual, hv], by simp [postExpensesManual, hv],
    by simp [postExpensesManual, hv], fun db' b hb => ?_⟩
  have hvb : validExpenseCreate b = true := by
    unfold validExpenseCreate
    exact decide_eq_true hb
  simp [postExpensesManual, hvb]

/-- Witness for C10: a request with amount -3 opens a connection and
never closes it. -/
theorem claim_C10_witness :
    (postExpensesManual dbEmpty ⟨1, -3, "food", none, none⟩ 100).2
      = [ReqEvent.connOpened] ∧
    ReqEvent.connOpened ∈ (postExpensesManual dbEmpty ⟨1, -3, "food", none, none⟩ 100).2 ∧
    ReqEvent.connClosed ∉ (postExpensesManual dbEmpty ⟨1, -3, "food", none, none⟩ 100).2 ∧
    (∀ (db' : DB) (b : ExpenseCreate), 0 < b.amount →
      (postExpensesManual db' b 100).2
        = [ReqEvent.connOpened, ReqEvent.dbStatement, ReqEvent.dbStatement,
           ReqEvent.connClosed]) :=
  claim_C10_connection_leak dbEmpty ⟨1, -3, "food", none, none⟩ 100 (by decide)

theorem byTransactionDateDesc_trans (a b c : ExportRow) :
    byTransactionDateDesc a b → byTransactionDateDesc b c →
      byTransactionDateDesc a c := by
  simp only [byTransactionDateDesc, decide_eq_true_eq]
  omega

theorem byTransactionDateDesc_total (a b : ExportRow) :
    byTransactionDateDesc a b || byTransactionDateDesc b a := by
  simp only [byTransactionDateDesc, Bool.or_eq_true, decide_eq_true_eq]
  omega

/-- Concrete one-expense database (its expense belongs to `user_id = 1`,
and the users table is empty, so the expense's user does not exist). -/
def dbOneExpense : DB := ⟨[], [⟨1, 1, 5, "food", none, 50, "manual"⟩]⟩

/-- Concrete database with one user and two expenses, one of which
belongs to a deleted (nonexistent) user. -/
def dbSample : DB :=
  ⟨[⟨1, "alice", "a@x.com", 0⟩],
   [⟨1, 1, 5, "food", none, 50, "manual"⟩,
    ⟨2, 1, 3, "gas", none, 60, "manual"⟩]⟩

/-- C6: the export result set has one output row per expense row across
all users (a left join against `users` on `user_id`, so an expense
whose user was deleted still appears, with NULL username/email), its
columns carry exactly the selected expense and user fields, and it is
ordered by `transaction_date` descending. -/
theorem claim_C6_export_shape (db : DB) :
    (exportRows db).length = db.expenses.length ∧
    (exportRows db).Perm (db.expenses.map (joinedRow db.users)) ∧
    (exportRows db).Pairwise
      (fun a b => b.transaction_date ≤ a.transaction_date) ∧
    (∀ e : ExpenseRow, (∀ u ∈ db.users, u.user_id ≠ e.user_id) →
      (joinedRow db.users e).username = none ∧
      (joinedRow db.users e).email = none) ∧
    (∀ e : ExpenseRow,
      (joinedRow db.users e).user_expense_id = e.user_expense_id ∧
      (joinedRow db.users e).user_id = e.user_id ∧
      (joinedRow db.users e).amount = e.amount ∧
      (joinedRow db.users e).category = e.category ∧
      (joinedRow db.users e).merchant = e.merchant ∧
      (joinedRow db.users e).transaction_date = e.transaction_date ∧
      (joinedRow db.users e).source = e.source) := by
  refine ⟨?_, List.mergeSort_perm _ _, ?_, ?_, ?_⟩
  · simp [exportRows]
  · exact (List.sorted_mergeSort byTransactionDateDesc_trans
      byTransactionDateDesc_total _).imp
      (fun h => by simpa [byTransactionDateDesc] using h)
  · intro e he
    have hfind : db.users.find? (fun u => u.user_id == e.user_id) = none :=
      List.find?_eq_none.mpr (fun u hu => by simpa using he u hu)
    simp [joinedRow, hfind]
  · intro e
    cases hf : db.users.find? (fun u => u.user_id == e.user_id) <;>
      simp [joinedRow, hf]

/-- Witness for C6 at a concrete store with one user and two expenses,
one of them owned by a nonexistent user. -/
theorem claim_C6_witness :
    (exportRows dbSample).length = dbSample.expenses.length ∧
    (exportRows dbSample).Perm (dbSample.expenses.map (joinedRow dbSample.users)) ∧
    (exportRows dbSample).Pairwise
      (fun a b => b.transaction_date ≤ a.transaction_date) ∧
    (∀ e : ExpenseRow, (∀ u ∈ dbSample.users, u.user_id ≠ e.user_id) →
      (joinedRow dbSample.users e).username = none ∧
      (joinedRow dbSample.users e).email = none) ∧
    (∀ e : ExpenseRow,
      (joinedRow dbSample.users e).user_expense_id = e.user_expense_id ∧
      (joinedRow dbSample.users e).user_id = e.user_id ∧
      (joinedRow dbSample.users e).amount = e.amount ∧
      (joinedRow dbSample.users e).category = e.category ∧
      (joinedRow dbSample.users e).merchant = e.merchant ∧
      (joinedRow dbSample.users e).transaction_date = e.transaction_date ∧
      (joinedRow dbSample.users e).source = e.source) :=
  claim_C6_export_shape dbSample

/-- C7: contrary to the claim, a GET request to /expenses/powerbi_export
never reaches the export handler: routing sends it to the user-expenses
route, whose integer validation of the segment fails, so the response
is a validation error (not 404/no-data).  The export handler itself —
dead code via its documented path — would indeed return the no-data
error exactly on an empty result set, and the Content-Disposition
value on success. -/
theorem claim_C7_export_route_dead :
    handleGet dbEmpty ["expenses", "powerbi_export"] = .error .validation ∧
    ApiError.validation ≠ ApiError.noData ∧
    statusOf .validation ≠ 404 ∧
    export_expenses_for_powerbi dbEmpty = .error .noData ∧
    statusOf .noData = 404 ∧
    export_expenses_for_powerbi dbOneExpense
      = .ok (exportRows dbOneExpense, exportContentDisposition) ∧
    exportContentDisposition = "attachment; filename=intellispend_expenses.csv" := by
  refine ⟨by decide, by decide, by decide, ?_, rfl, ?_, rfl⟩
  · simp [export_expenses_for_powerbi, exportRows, dbEmpty]
  · have h : (exportRows dbOneExpense).isEmpty = false := by
      simp [exportRows, dbOneExpense]
    simp [export_expenses_for_powerbi, h]

/-- C8: because the route pattern for /expenses/\x7buser_id\x7d is
registered before the literal /expenses/powerbi_export route (which is
present in the table and would match), every GET request to
/expenses/powerbi_export is dispatched to the user-expenses handler
with the segment as `user_id`; its integer parsing fails, so for every
database state the request yields a validation error and never a
successful response: the export handler is unreachable via its
documented path. -/
theorem claim_C8_route_shadowing (db : DB) :
    ([Seg.lit "expenses", Seg.lit "powerbi_export"], GetHandler.powerbi_export)
        ∈ getRoutes ∧
    matchesPattern [Seg.lit "expenses", Seg.lit "powerbi_export"]
        ["expenses", "powerbi_export"] = true ∧
    dispatchGet ["expenses", "powerbi_export"]
      = some (.user_expenses, ["powerbi_export"]) ∧
    parseIntSegment "powerbi_export" = none ∧
    handleGet db ["expenses", "powerbi_export"] = .error .validation ∧
    ∀ ok : GetOk, handleGet db ["expenses", "powerbi_export"] ≠ .ok ok := by
  have hh : handleGet db ["expenses", "powerbi_export"] = .error .validation := rfl
  exact ⟨by decide, by decide, by decide, by decide, hh,
    fun ok h => Except.noConfusion ((hh ▸ h) : Except.error ApiError.validation = Except.ok ok)⟩

/-- Witness for C8 at the empty database. -/
theorem claim_C8_witness :
    ([Seg.lit "expenses", Seg.lit "powerbi_export"], GetHandler.powerbi_export)
        ∈ getRoutes ∧
    matchesPattern [Seg.lit "expenses", Seg.lit "powerbi_export"]
        ["expenses", "powerbi_export"] = true ∧
    dispatchGet ["expenses", "powerbi_export"]
      = some (.user_expenses, ["powerbi_export"]) ∧
    parseIntSegment "powerbi_export" = none ∧
    handleGet dbEmpty ["expenses", "powerbi_export"] = .error .validation ∧
    (∀ ok : GetOk, handleGet dbEmpty ["expenses", "powerbi_export"] ≠ .ok ok) :=
  claim_C8_route_shadowing dbEmpty

theorem dispatchGet_expenses_seg (s : String) :
    dispatchGet ["expenses", s] = some (.user_expenses, [s]) := rfl

/-- C9: a GET request to /expenses/\x7buser_id\x7d for any `user_id`
that parses as an integer but has no matching expense rows — including
a `user_id` referencing no existing user — succeeds with the empty
list, never an error. -/
theorem claim_C9_no_rows_ok (db : DB) (s : String) (uid : Int)
    (hs : parseIntSegment s = some uid)
    (hempty : db.expenses.filter (fun e => e.user_id == uid) = []) :
    get_user_expenses db uid = [] ∧
    handleGet db ["expenses", s] = .ok (.expenseList []) ∧
    ∀ e : ApiError, handleGet db ["expenses", s] ≠ .error e := by
  have hg : get_user_expenses db uid = [] := by
    unfold get_user_expenses
    rw [hempty]
    simp
  have hh : handleGet db ["expenses", s] = .ok (.expenseList []) := by
    have h1 : handleGet db ["expenses", s]
        = (match parseIntSegment s with
           | none => Except.error ApiError.validation
           | some uid => Except.ok (GetOk.expenseList (get_user_expenses db uid))) := rfl
    rw [h1, hs]
    simp [hg]
  exact ⟨hg, hh, fun e h =>
    Except.noConfusion ((hh ▸ h) : Except.ok (GetOk.expenseList []) = Except.error e)⟩

/-- Witness for C9: user 7 has no expense rows (and does not exist in
the users table); the listing request succeeds with the empty list. -/
theorem claim_C9_witness :
    get_user_expenses dbOneExpense 7 = [] ∧
    handleGet dbOneExpense ["expenses", "7"] = .ok (.expenseList []) ∧
    (∀ e : ApiError, handleGet dbOneExpense ["expenses", "7"] ≠ .error e) :=
  claim_C9_no_rows_ok dbOneExpense "7" 7 (by decide) (by decide)

end IntelliSpend
